import Mathlib

/-!
Shallow embedding of
`src/components/partials/documentation/DocumentationDemoFormValidation.vue`:
a signup form demo wiring a zod validation schema through vee-validate and
simulating an asynchronous submission.

The zod schema is embedded as a pure function from a raw input record to a
list of issues (field path, message).  Zod semantics that matter here:

* a missing key fails its field with the declared `required_error` and the
  field parse ABORTS (zod status INVALID);
* a present value of the right type that violates a check (`.email`,
  `.min`, `.max`, boolean `.refine`) adds an issue but the parse is only
  DIRTY, not aborted;
* the object-level `.refine` (password confirmation) runs exactly when no
  field parse aborted, and its issue is appended last with path
  `passwordCheck`.

The `.email` format check belongs to the external library, so it is a
parameter `isEmail` of the embedding; likewise the `new Date()` captured
by `.max` on `birthdate` is a parameter `now` (dates are epoch
milliseconds).  The submit handler is embedded as a state transformer on
the `loading` flag that emits a trace of effects (sleep, notification,
field-error mutation, scroll).
-/

namespace DemoFormValidation

/-- A calendar date, as milliseconds since the Unix epoch. -/
abbrev Date := Int

/-- One validation issue: the field path it is attached to and its message. -/
abbrev Issue := String × String

/-- Raw form input as seen by the schema.  Each field is `none` when the
key is absent from the submitted object; `birthdate` is additionally
nullable, so `some none` is an explicit `null`. -/
structure RawInput where
  email : Option String
  password : Option String
  passwordCheck : Option String
  birthdate : Option (Option Date)
  agreeTerms : Option Bool
  interests : Option (List String)
  emailOptin : Option Bool
deriving Repr, DecidableEq

/-- `zod.string({ required_error: 'Enter your email first' }).email('A valid
email address should be provided')` — the format check `isEmail` is the
external library predicate. -/
def emailIssues (isEmail : String → Bool) : Option String → List Issue
  | none => [("email", "Enter your email first")]
  | some e =>
      if isEmail e then [] else [("email", "A valid email address should be provided")]

/-- `zod.string({ required_error: 'Enter your password to sign in' }).min(8,
'Your password should contains at least 8 characters')`. -/
def passwordIssues : Option String → List Issue
  | none => [("password", "Enter your password to sign in")]
  | some p =>
      if p.length < 8 then
        [("password", "Your password should contains at least 8 characters")]
      else []

/-- `zod.string()` for passwordCheck: only the implicit required check, with
the zod default message. -/
def passwordCheckIssues : Option String → List Issue
  | none => [("passwordCheck", "Required")]
  | some _ => []

/-- `zod.date({ invalid_type_error: ..., required_error: 'Please enter a
date' }).max(new Date(), 'You cannot be born in the future').nullable()`.
The embedding is typed so only the missing-key and max checks can fire;
`now` stands for the `new Date()` captured at schema creation. -/
def birthdateIssues (now : Date) : Option (Option Date) → List Issue
  | none => [("birthdate", "Please enter a date")]
  | some none => []
  | some (some d) =>
      if now < d then [("birthdate", "You cannot be born in the future")] else []

/-- `zod.boolean().refine((value) => value, 'You must agree our terms of
service')`. -/
def agreeTermsIssues : Option Bool → List Issue
  | none => [("agreeTerms", "Required")]
  | some b => if b then [] else [("agreeTerms", "You must agree our terms of service")]

/-- `zod.string().array().min(2, 'You must select at least 2 terms of
service').max(3, 'You can select up to 3 terms of service')`.  Zod runs
both checks, each adding its own issue when violated. -/
def interestsIssues : Option (List String) → List Issue
  | none => [("interests", "Required")]
  | some l =>
      (if l.length < 2 then
        [("interests", "You must select at least 2 terms of service")] else []) ++
      (if 3 < l.length then
        [("interests", "You can select up to 3 terms of service")] else [])

/-- `zod.boolean()` for emailOptin: only the implicit required check. -/
def emailOptinIssues : Option Bool → List Issue
  | none => [("emailOptin", "Required")]
  | some _ => []

/-- Field-level issues of the object schema, in shape-key order. -/
def fieldIssues (isEmail : String → Bool) (now : Date) (input : RawInput) : List Issue :=
  emailIssues isEmail input.email ++ passwordIssues input.password ++
  passwordCheckIssues input.passwordCheck ++ birthdateIssues now input.birthdate ++
  agreeTermsIssues input.agreeTerms ++ interestsIssues input.interests ++
  emailOptinIssues input.emailOptin

/-- Whether some field parse ABORTED.  In this typed embedding exactly the
missing keys abort; check violations on present values are only dirty. -/
def anyAborted (input : RawInput) : Bool :=
  input.email.isNone || input.password.isNone || input.passwordCheck.isNone ||
  input.birthdate.isNone || input.agreeTerms.isNone || input.interests.isNone ||
  input.emailOptin.isNone

/-- The object-level `.refine((data) => data.password === data.passwordCheck,
{ message: 'The confirmation does not match the password', path:
['passwordCheck'] })`.  Zod runs it only when no field parse aborted; both
passwords are then present, so comparing the options compares the values. -/
def refineIssues (input : RawInput) : List Issue :=
  if anyAborted input then []
  else if input.password = input.passwordCheck then []
  else [("passwordCheck", "The confirmation does not match the password")]

/-- The full `validationSchema`: every issue reported by a safe parse of
`input`, field issues first, the cross-field refinement issue last.
Validation succeeds exactly when the result is `[]`. -/
def validationSchema (isEmail : String → Bool) (now : Date) (input : RawInput) :
    List Issue :=
  fieldIssues isEmail now input ++ refineIssues input

/-- The `initialValues` passed to `useForm`. -/
def initialValues : RawInput where
  email := some ""
  password := some ""
  passwordCheck := some ""
  birthdate := some none
  agreeTerms := some false
  interests := some []
  emailOptin := some false

/-- Observable effects of the submit handler, in program order. -/
inductive Effect where
  | sleep (ms : Nat)
  | notifySuccess (msg : String)
  | setFieldError (field msg : String)
  | scrollTo (target : String)
deriving Repr, DecidableEq

/-- The anonymous async callback passed to `handleSubmit`, as a transformer
of the `loading` flag that also emits its effect trace.  It receives the
validated `values`, of which only `email` is inspected. -/
def signupCallback (loading : Bool) (email : String) : Bool × List Effect :=
  if loading then (loading, [])
  else if email ≠ "awesome@cssninja.io" then
    (false,
      [Effect.sleep 1600,
       Effect.setFieldError "email"
         "This email is already taken! Tip: use awesome@cssninja.io",
       Effect.scrollTo "#email"])
  else
    (false,
      [Effect.sleep 1600,
       Effect.notifySuccess "You have successfully signed up!"])

/-- `handleSignup = handleSubmit(callback)`: vee-validate validates the
current values against the schema and invokes the callback only when
validation produced no issue; otherwise the handler itself does nothing
(vee-validate displays the schema issues, the handler adds none). -/
def handleSignup (isEmail : String → Bool) (now : Date) (loading : Bool)
    (input : RawInput) : Bool × List Effect :=
  if validationSchema isEmail now input = [] then
    signupCallback loading (input.email.getD "")
  else (loading, [])

/-- A concrete submission object that passes every rule of the schema. -/
def validInput : RawInput where
  email := some "awesome@cssninja.io"
  password := some "12345678"
  passwordCheck := some "12345678"
  birthdate := some none
  agreeTerms := some true
  interests := some ["Food", "Home Appliances"]
  emailOptin := some false

/-- Like `validInput` but with an email other than the hard-coded one. -/
def takenEmailInput : RawInput :=
  { validInput with email := some "john@doe.io" }

/-- Like `validInput` but with a confirmation differing from the password. -/
def presentMismatchInput : RawInput :=
  { validInput with passwordCheck := some "87654321" }

/-- A submission whose passwords differ while another field is absent. -/
def mismatchInput : RawInput where
  email := none
  password := some "aaaaaaaa"
  passwordCheck := some "bbbbbbbb"
  birthdate := some none
  agreeTerms := some true
  interests := some ["Food", "Home Appliances"]
  emailOptin := some false

/-- When some field parse aborted, that field already contributed an issue,
so the field-issue list is nonempty. -/
theorem fieldIssues_ne_nil_of_aborted (isEmail : String → Bool) (now : Date)
    (input : RawInput) (h : anyAborted input = true) :
    fieldIssues isEmail now input ≠ [] := by
  intro hnil
  simp only [fieldIssues, List.append_eq_nil] at hnil
  obtain ⟨⟨⟨⟨⟨⟨h1, h2⟩, h3⟩, h4⟩, h5⟩, h6⟩, h7⟩ := hnil
  simp only [anyAborted, Bool.or_eq_true, Option.isNone_iff_eq_none] at h
  rcases h with ((((((h | h) | h) | h) | h) | h) | h)
  · rw [h] at h1; simp [emailIssues] at h1
  · rw [h] at h2; simp [passwordIssues] at h2
  · rw [h] at h3; simp [passwordCheckIssues] at h3
  · rw [h] at h4; simp [birthdateIssues] at h4
  · rw [h] at h5; simp [agreeTermsIssues] at h5
  · rw [h] at h6; simp [interestsIssues] at h6
  · rw [h] at h7; simp [emailOptinIssues] at h7

/-- Claim C1: the submission flow is a pass-through gated by schema
validation: the asynchronous body of handleSignup runs if and only if
schema validation of the current form values succeeds; when validation
fails, the handler performs no delay, shows no notification, and sets no
field error itself. -/
theorem handleSignup_gated (isEmail : String → Bool) (now : Date) (loading : Bool)
    (input : RawInput) :
    (validationSchema isEmail now input ≠ [] →
      handleSignup isEmail now loading input = (loading, [])) ∧
    (validationSchema isEmail now input = [] →
      handleSignup isEmail now loading input =
        signupCallback loading (input.email.getD "")) := by
  constructor <;> intro h <;> simp [handleSignup, h]

/-- Witness for C1: at the initial values, which fail validation, the
handler leaves loading alone and emits no effect. -/
theorem handleSignup_gated_witness :
    validationSchema (fun _ => true) 0 initialValues ≠ [] ∧
    handleSignup (fun _ => true) 0 false initialValues = (false, []) :=
  ⟨by decide, (handleSignup_gated (fun _ => true) 0 false initialValues).1 (by decide)⟩

/-- Claim C2, counterexample to the claim as stated: with the email key
absent and the two passwords different, validation fails but the issue
list does not contain the confirmation error at passwordCheck, because a
field parse aborted and the object-level refinement never ran. -/
theorem password_confirmation_cex :
    mismatchInput.password = some "aaaaaaaa" ∧
    mismatchInput.passwordCheck = some "bbbbbbbb" ∧
    ("aaaaaaaa" : String) ≠ "bbbbbbbb" ∧
    validationSchema (fun _ => true) 0 mismatchInput ≠ [] ∧
    ("passwordCheck", "The confirmation does not match the password") ∉
      validationSchema (fun _ => true) 0 mismatchInput := by
  exact ⟨rfl, rfl, by decide, by decide, by decide⟩

/-- Claim C2 as amended: whenever the two password fields hold different
strings, validation fails; and when additionally no field parse aborted
(every key of the object is present), the confirmation error is attached
to the passwordCheck field. -/
theorem password_confirmation_mismatch (isEmail : String → Bool) (now : Date)
    (input : RawInput) (p q : String)
    (hp : input.password = some p) (hq : input.passwordCheck = some q)
    (hpq : p ≠ q) :
    validationSchema isEmail now input ≠ [] ∧
    (anyAborted input = false →
      ("passwordCheck", "The confirmation does not match the password") ∈
        validationSchema isEmail now input) := by
  have hne : input.password ≠ input.passwordCheck := by
    rw [hp, hq]; simp [hpq]
  have hrefine : anyAborted input = false →
      refineIssues input =
        [("passwordCheck", "The confirmation does not match the password")] := by
    intro h
    simp [refineIssues, h, hne]
  constructor
  · cases h : anyAborted input
    · intro hnil
      simp only [validationSchema, hrefine h] at hnil
      simp [List.append_eq_nil] at hnil
    · intro hnil
      simp only [validationSchema, List.append_eq_nil] at hnil
      exact fieldIssues_ne_nil_of_aborted isEmail now input h hnil.1
  · intro h
    simp [validationSchema, hrefine h]

/-- Witness for the amended C2: a fully present input with differing
passwords fails validation with the confirmation error on passwordCheck. -/
theorem password_confirmation_witness :
    presentMismatchInput.password = some "12345678" ∧
    presentMismatchInput.passwordCheck = some "87654321" ∧
    ("12345678" : String) ≠ "87654321" ∧
    (validationSchema (fun _ => true) 0 presentMismatchInput ≠ [] ∧
      (anyAborted presentMismatchInput = false →
        ("passwordCheck", "The confirmation does not match the password") ∈
          validationSchema (fun _ => true) 0 presentMismatchInput)) :=
  ⟨rfl, rfl, by decide,
    password_confirmation_mismatch (fun _ => true) 0 presentMismatchInput
      "12345678" "87654321" rfl rfl (by decide)⟩

/-- Claim C3: for every input whose password is present but shorter than 8
characters, validation fails and reports the minimum-length message on the
password field. -/
theorem password_min_length (isEmail : String → Bool) (now : Date)
    (input : RawInput) (p : String)
    (hp : input.password = some p) (hlen : p.length < 8) :
    ("password", "Your password should contains at least 8 characters") ∈
      validationSchema isEmail now input ∧
    validationSchema isEmail now input ≠ [] := by
  have hm : ("password", "Your password should contains at least 8 characters") ∈
      validationSchema isEmail now input := by
    simp [validationSchema, fieldIssues, passwordIssues, hp, hlen]
  exact ⟨hm, List.ne_nil_of_mem hm⟩

/-- Witness for C3: the empty initial password violates the rule. -/
theorem password_min_length_witness :
    initialValues.password = some "" ∧ ("" : String).length < 8 ∧
    (("password", "Your password should contains at least 8 characters") ∈
        validationSchema (fun _ => true) 0 initialValues ∧
      validationSchema (fun _ => true) 0 initialValues ≠ []) :=
  ⟨rfl, by decide,
    password_min_length (fun _ => true) 0 initialValues "" rfl (by decide)⟩

/-- Claim C4: email is required with a format rule: validation fails when
the email key is absent, with the required message, and fails when the
email is present but rejected by the format check of the external library,
with the format message. -/
theorem email_required_and_format (isEmail : String → Bool) (now : Date)
    (input : RawInput) :
    (input.email = none →
      ("email", "Enter your email first") ∈ validationSchema isEmail now input ∧
      validationSchema isEmail now input ≠ []) ∧
    (∀ e, input.email = some e → isEmail e = false →
      ("email", "A valid email address should be provided") ∈
        validationSchema isEmail now input ∧
      validationSchema isEmail now input ≠ []) := by
  constructor
  · intro h
    have hm : ("email", "Enter your email first") ∈
        validationSchema isEmail now input := by
      simp [validationSchema, fieldIssues, emailIssues, h]
    exact ⟨hm, List.ne_nil_of_mem hm⟩
  · intro e he hne
    have hm : ("email", "A valid email address should be provided") ∈
        validationSchema isEmail now input := by
      simp [validationSchema, fieldIssues, emailIssues, he, hne]
    exact ⟨hm, List.ne_nil_of_mem hm⟩

/-- Witness for C4: the empty initial email, rejected by the format check,
produces the format error. -/
theorem email_required_and_format_witness :
    initialValues.email = some "" ∧
    (("email", "A valid email address should be provided") ∈
        validationSchema (fun _ => false) 0 initialValues ∧
      validationSchema (fun _ => false) 0 initialValues ≠ []) :=
  ⟨rfl, (email_required_and_format (fun _ => false) 0 initialValues).2 "" rfl rfl⟩

/-- Claim C5: for values that pass validation, the (not already loading)
handler first awaits the fixed 1600 ms sleep and only then produces its
outcome, either the success notification or the email field error with the
scroll. -/
theorem sleep_precedes_outcome (isEmail : String → Bool) (now : Date)
    (input : RawInput) (e : String)
    (hv : validationSchema isEmail now input = [])
    (he : input.email = some e) :
    (handleSignup isEmail now false input).2 =
      Effect.sleep 1600 ::
        (if e = "awesome@cssninja.io" then
          [Effect.notifySuccess "You have successfully signed up!"]
        else
          [Effect.setFieldError "email"
             "This email is already taken! Tip: use awesome@cssninja.io",
           Effect.scrollTo "#email"]) := by
  by_cases hc : e = "awesome@cssninja.io" <;>
    simp [handleSignup, hv, he, signupCallback, hc]

/-- Witness for C5 at a concrete valid submission. -/
theorem sleep_precedes_outcome_witness :
    validationSchema (fun _ => true) 0 validInput = [] ∧
    validInput.email = some "awesome@cssninja.io" ∧
    (handleSignup (fun _ => true) 0 false validInput).2 =
      Effect.sleep 1600 ::
        (if "awesome@cssninja.io" = "awesome@cssninja.io" then
          [Effect.notifySuccess "You have successfully signed up!"]
        else
          [Effect.setFieldError "email"
             "This email is already taken! Tip: use awesome@cssninja.io",
           Effect.scrollTo "#email"]) :=
  ⟨by decide, rfl,
    sleep_precedes_outcome (fun _ => true) 0 validInput "awesome@cssninja.io"
      (by decide) rfl⟩

/-- Claim C6: the declared initial values do not satisfy the schema, so
submitting the untouched form never reaches the submission callback: the
handler emits no effect and leaves loading unchanged. -/
theorem initialValues_do_not_validate (isEmail : String → Bool) (now : Date)
    (loading : Bool) :
    validationSchema isEmail now initialValues ≠ [] ∧
    handleSignup isEmail now loading initialValues = (loading, []) := by
  have h : validationSchema isEmail now initialValues ≠ [] := by
    intro hnil
    simp only [validationSchema, fieldIssues, List.append_eq_nil] at hnil
    obtain ⟨⟨⟨⟨⟨⟨⟨h1, h2⟩, h3⟩, h4⟩, h5⟩, h6⟩, h7⟩, h8⟩ := hnil
    have hpw : passwordIssues initialValues.password =
        [("password", "Your password should contains at least 8 characters")] := by
      decide
    rw [hpw] at h2
    exact List.cons_ne_nil _ _ h2
  refine ⟨h, ?_⟩
  simp [handleSignup, h]

/-- Claim C7: for every validated submission, the outcome is decided solely
by the hard-coded email comparison: the success notification appears
exactly when the email is the hard-coded address; otherwise the handler
sets the taken-email error on the email field, scrolls to the email
anchor, and shows no success notification. -/
theorem outcome_decided_by_email (isEmail : String → Bool) (now : Date)
    (input : RawInput) (e : String)
    (hv : validationSchema isEmail now input = [])
    (he : input.email = some e) :
    ((handleSignup isEmail now false input).2 =
        [Effect.sleep 1600, Effect.notifySuccess "You have successfully signed up!"]
      ↔ e = "awesome@cssninja.io") ∧
    (e ≠ "awesome@cssninja.io" →
      (handleSignup isEmail now false input).2 =
        [Effect.sleep 1600,
         Effect.setFieldError "email"
           "This email is already taken! Tip: use awesome@cssninja.io",
         Effect.scrollTo "#email"] ∧
      Effect.notifySuccess "You have successfully signed up!" ∉
        (handleSignup isEmail now false input).2) := by
  by_cases hc : e = "awesome@cssninja.io" <;>
    simp [handleSignup, hv, he, signupCallback, hc]

/-- Witness for C7 at a concrete valid submission with a different email. -/
theorem outcome_decided_by_email_witness :
    validationSchema (fun _ => true) 0 takenEmailInput = [] ∧
    takenEmailInput.email = some "john@doe.io" ∧
    ((handleSignup (fun _ => true) 0 false takenEmailInput).2 =
        [Effect.sleep 1600,
         Effect.setFieldError "email"
           "This email is already taken! Tip: use awesome@cssninja.io",
         Effect.scrollTo "#email"] ∧
      Effect.notifySuccess "You have successfully signed up!" ∉
        (handleSignup (fun _ => true) 0 false takenEmailInput).2) :=
  ⟨by decide, rfl,
    (outcome_decided_by_email (fun _ => true) 0 takenEmailInput "john@doe.io"
        (by decide) rfl).2 (by decide)⟩

/-- Claim C8: the loading flag is a reentrancy guard that is always
released: invoked while loading, the callback returns immediately with no
effect and no state change; started not loading, it always finishes with
loading false, on either outcome; hence the handler started idle ends
idle. -/
theorem loading_guard (isEmail : String → Bool) (now : Date) (input : RawInput)
    (e : String) :
    signupCallback true e = (true, []) ∧
    (signupCallback false e).1 = false ∧
    (handleSignup isEmail now false input).1 = false := by
  refine ⟨rfl, ?_, ?_⟩
  · by_cases hc : e = "awesome@cssninja.io" <;> simp [signupCallback, hc]
  · by_cases hv : validationSchema isEmail now input = []
    · by_cases hc : input.email.getD "" = "awesome@cssninja.io" <;>
        simp [handleSignup, hv, signupCallback, hc]
    · simp [handleSignup, hv]

/-- Claim C9: the interests rule bounds the selection on both sides:
validation fails with the minimum message below 2 elements and with the
maximum message above 3, and the rule itself passes exactly when the
length is 2 or 3. -/
theorem interests_length_bounds (isEmail : String → Bool) (now : Date)
    (input : RawInput) (l : List String)
    (hl : input.interests = some l) :
    (l.length < 2 →
      ("interests", "You must select at least 2 terms of service") ∈
        validationSchema isEmail now input ∧
      validationSchema isEmail now input ≠ []) ∧
    (3 < l.length →
      ("interests", "You can select up to 3 terms of service") ∈
        validationSchema isEmail now input ∧
      validationSchema isEmail now input ≠ []) ∧
    (interestsIssues (some l) = [] ↔ 2 ≤ l.length ∧ l.length ≤ 3) := by
  refine ⟨?_, ?_, ?_⟩
  · intro h
    have hm : ("interests", "You must select at least 2 terms of service") ∈
        validationSchema isEmail now input := by
      simp [validationSchema, fieldIssues, interestsIssues, hl, h]
    exact ⟨hm, List.ne_nil_of_mem hm⟩
  · intro h
    have hm : ("interests", "You can select up to 3 terms of service") ∈
        validationSchema isEmail now input := by
      simp [validationSchema, fieldIssues, interestsIssues, hl, h]
    exact ⟨hm, List.ne_nil_of_mem hm⟩
  · simp only [interestsIssues, List.append_eq_nil, ite_eq_right_iff,
      List.cons_ne_nil, imp_false]
    omega

/-- Witness for C9: the empty initial selection violates the lower bound. -/
theorem interests_length_bounds_witness :
    initialValues.interests = some [] ∧
    (("interests", "You must select at least 2 terms of service") ∈
        validationSchema (fun _ => true) 0 initialValues ∧
      validationSchema (fun _ => true) 0 initialValues ≠ []) :=
  ⟨rfl,
    (interests_length_bounds (fun _ => true) 0 initialValues [] rfl).1 (by decide)⟩

end DemoFormValidation
